import Mathlib

set_option maxRecDepth 16384

/-!
Verification of the s3-simulation repository (generate_s3_structure.py and
monthly_archive.py) via a shallow embedding in Lean 4.

Conventions of the embedding:
* Byte sequences are `List Nat` (one `Nat` per byte).  All the fixed
  skeleton strings of the repository are ASCII, so a character maps to
  exactly one byte under UTF-8 encoding.
* Python `datetime` values are the `DateTime` structure below (proleptic
  Gregorian calendar, microsecond resolution).  Timezone awareness is the
  `aware` flag of `ADateTime`; comparing an aware and a naive instant
  raises `TypeError` in Python, which the embedding models as
  `Except.error ()` from the comparison `awLe`.
* boto3 returns `LastModified` as a timezone-aware datetime, so the
  selector wraps an object's `lastModified` field with `aware := true`.
* Fallible operations return `Except Unit` / `Option`.
-/

/-- Bytes of an ASCII string, one `Nat` per character (equals the UTF-8
encoding for the ASCII strings used by the generator). -/
def strBytes (s : String) : List Nat := s.data.map Char.toNat

/-- PDF header written by `create_dummy_pdf` (`b"%PDF-1.4\n"`). -/
def pdf_header : String := "%PDF-1.4\n"

/-- Fixed minimal PDF body/trailer skeleton written by `create_dummy_pdf`
(the `pdf_content` bytes literal, transcribed verbatim). -/
def pdf_content : String :=
  "1 0 obj\n<< /Type /Catalog /Pages 2 0 R >>\nendobj\n2 0 obj\n<< /Type /Pages /Kids [3 0 R] /Count 1 >>\nendobj\n3 0 obj\n<< /Type /Page /Parent 2 0 R /Resources 4 0 R /MediaBox [0 0 612 792] /Contents 5 0 R >>\nendobj\n4 0 obj\n<< /Font << /F1 << /Type /Font /Subtype /Type1 /BaseFont /Helvetica >> >> >>\nendobj\n5 0 obj\n<< /Length 44 >>\nstream\nBT /F1 12 Tf 100 700 Td (Dummy Document) Tj ET\nendstream\nendobj\nxref\n0 6\n0000000000 65535 f\n0000000009 00000 n\n0000000058 00000 n\n0000000115 00000 n\n0000000229 00000 n\n0000000327 00000 n\ntrailer\n<< /Size 6 /Root 1 0 R >>\nstartxref\n420\n%%EOF\n"

/-- create_dummy_pdf: header, fixed skeleton, then zero-byte padding of
length `max(0, size_bytes - header_size)`. -/
def create_dummy_pdf (size_bytes : Nat) : List Nat :=
  let header_size := (strBytes pdf_header).length + (strBytes pdf_content).length
  let padding_size := max 0 (size_bytes - header_size)
  strBytes pdf_header ++ strBytes pdf_content ++ List.replicate padding_size 0

/-- XML declaration written by `create_dummy_xml`. -/
def xml_header : String := "<?xml version=\"1.0\" encoding=\"UTF-8\"?>\n"

/-- Opening tags written by `create_dummy_xml`. -/
def xml_start : String := "<document>\n  <type>OPA</type>\n  <data>\n"

/-- Closing tags written by `create_dummy_xml`. -/
def xml_end : String := "  </data>\n</document>\n"

/-- Character set `string.ascii_letters + string.digits + ' \n'` that
`create_dummy_xml` draws its random padding from (all ASCII, so each
chosen character encodes to one UTF-8 byte). -/
def xml_charset : String :=
  "abcdefghijklmnopqrstuvwxyzABCDEFGHIJKLMNOPQRSTUVWXYZ0123456789 \n"

/-- create_dummy_xml: header, opening tags, `max(0, size - skeleton)`
random charset characters, closing tags.  The randomness of
`random.choices` is modelled by the oracle `rand`, which picks the index
into the character set for each padding position. -/
def create_dummy_xml (size_bytes : Nat) (rand : Nat → Nat) : List Nat :=
  let header_size :=
    (strBytes xml_header).length + (strBytes xml_start).length + (strBytes xml_end).length
  let padding_size := max 0 (size_bytes - header_size)
  let padding := (List.range padding_size).map
    (fun i => ((xml_charset.data.getD (rand i % xml_charset.length) ' ')).toNat)
  strBytes xml_header ++ strBytes xml_start ++ padding ++ strBytes xml_end

/-- Total length of the fixed PDF skeleton (header plus body/trailer). -/
def pdfSkeletonLen : Nat := (strBytes pdf_header).length + (strBytes pdf_content).length

/-- Total length of the fixed XML skeleton (declaration, opening and
closing tags). -/
def xmlSkeletonLen : Nat :=
  (strBytes xml_header).length + (strBytes xml_start).length + (strBytes xml_end).length

/-! ## Calendar and datetime model (Python `datetime`, proleptic Gregorian) -/

/-- Gregorian leap-year test. -/
def isLeap (y : Nat) : Bool :=
  y % 4 = 0 && (y % 100 != 0 || y % 400 = 0)

/-- Number of days in month `m` of year `y` (months are 1..12). -/
def daysInMonth (y m : Nat) : Nat :=
  if m = 2 then (if isLeap y then 29 else 28)
  else if m = 4 || m = 6 || m = 9 || m = 11 then 30
  else 31

/-- Days in year `y` before the first day of month `m` (months 1..12). -/
def daysBeforeMonth (y : Nat) : Nat → Nat
  | 0 => 0
  | 1 => 0
  | m + 1 => daysBeforeMonth y m + daysInMonth y m

/-- Days of the proleptic Gregorian calendar strictly before January 1 of
year `y` (counting from year 1). -/
def daysBeforeYear (y : Nat) : Nat :=
  365 * (y - 1) + ((y - 1) / 4 - (y - 1) / 100) + (y - 1) / 400

/-- A Python `datetime.datetime` value (naive; awareness is tracked
separately by `ADateTime`). -/
structure DateTime where
  year : Nat
  month : Nat
  day : Nat
  hour : Nat
  minute : Nat
  second : Nat
  microsecond : Nat
deriving Repr, DecidableEq

/-- Validity of a `DateTime` (the invariant Python's constructor checks). -/
def DateTime.Valid (t : DateTime) : Prop :=
  1 ≤ t.year ∧ 1 ≤ t.month ∧ t.month ≤ 12 ∧ 1 ≤ t.day ∧
  t.day ≤ daysInMonth t.year t.month ∧ t.hour ≤ 23 ∧ t.minute ≤ 59 ∧
  t.second ≤ 59 ∧ t.microsecond ≤ 999999

instance (t : DateTime) : Decidable t.Valid := by
  unfold DateTime.Valid; infer_instance

/-- Microseconds on the proleptic Gregorian timeline since the first
instant of year 1.  For valid datetimes this is the order embedding that
Python's datetime comparison realizes. -/
def dtMicros (t : DateTime) : Nat :=
  ((daysBeforeYear t.year + daysBeforeMonth t.year t.month + (t.day - 1)) * 86400
      + t.hour * 3600 + t.minute * 60 + t.second) * 1000000 + t.microsecond

/-- Python `<=` on two naive (or two aware-UTC) datetimes. -/
def dtLe (a b : DateTime) : Bool := dtMicros a ≤ dtMicros b

/-- A possibly timezone-aware datetime: `aware = true` models
`tzinfo = timezone.utc`, `aware = false` a naive value. -/
structure ADateTime where
  dt : DateTime
  aware : Bool
deriving Repr, DecidableEq

/-- Python `<=` between two possibly-aware datetimes: comparing an aware
and a naive instant raises `TypeError`, modelled as `Except.error ()`. -/
def awLe (a b : ADateTime) : Except Unit Bool :=
  if a.aware = b.aware then .ok (dtLe a.dt b.dt) else .error ()

/-- Python's chained comparison `lo <= x <= hi` (short-circuits after a
false first comparison, exactly as Python does). -/
def chainedLe (lo x hi : ADateTime) : Except Unit Bool :=
  match awLe lo x with
  | .error eu => .error eu
  | .ok b => if b then awLe x hi else .ok false

/-- Result of `t - timedelta(days=1)` for a valid datetime (Python's
timedelta subtraction restricted to one day, written out on fields). -/
def subOneDay (t : DateTime) : DateTime :=
  if 1 < t.day then { t with day := t.day - 1 }
  else if 1 < t.month then
    { t with month := t.month - 1, day := daysInMonth t.year (t.month - 1) }
  else { t with year := t.year - 1, month := 12, day := 31 }

/-- Result of `t - timedelta(microseconds=1)` for a valid datetime. -/
def subOneMicro (t : DateTime) : DateTime :=
  if 0 < t.microsecond then { t with microsecond := t.microsecond - 1 }
  else if 0 < t.second then { t with second := t.second - 1, microsecond := 999999 }
  else if 0 < t.minute then
    { t with minute := t.minute - 1, second := 59, microsecond := 999999 }
  else if 0 < t.hour then
    { t with hour := t.hour - 1, minute := 59, second := 59, microsecond := 999999 }
  else
    { subOneDay t with hour := 23, minute := 59, second := 59, microsecond := 999999 }

/-- MonthlyArchiver.get_previous_month_range: `reference_date.replace(day=1,
hour=0, minute=0, second=0, microsecond=0)` is the first instant of the
current month; subtract one day and replace `day=1` for the start, subtract
one microsecond for the end; the bounds are re-labeled UTC-aware exactly
when `use_s3` is set. -/
def get_previous_month_range (reference_date : DateTime) (use_s3 : Bool) :
    ADateTime × ADateTime :=
  let first_of_current_month : DateTime :=
    { reference_date with day := 1, hour := 0, minute := 0, second := 0, microsecond := 0 }
  let last_of_previous_month := subOneDay first_of_current_month
  let first_of_previous_month : DateTime :=
    { last_of_previous_month with day := 1, hour := 0, minute := 0, second := 0, microsecond := 0 }
  let end_of_previous_month := subOneMicro first_of_current_month
  (⟨first_of_previous_month, use_s3⟩, ⟨end_of_previous_month, use_s3⟩)

/-! ## strptime model for the two fixed formats used by the scripts -/

/-- Decimal digit test. -/
def isDig (c : Char) : Bool := 48 ≤ c.toNat && c.toNat ≤ 57

/-- Value of a decimal digit character. -/
def digVal (c : Char) : Nat := c.toNat - 48

/-- Parse the `%Y` directive: exactly four decimal digits. -/
def parseY : List Char → Option (Nat × List Char)
  | a :: b :: c :: d :: rest =>
    if isDig a && isDig b && isDig c && isDig d then
      some (digVal a * 1000 + digVal b * 100 + digVal c * 10 + digVal d, rest)
    else none
  | _ => none

/-- Parse a one- or two-digit numeric directive.  CPython's `_strptime`
regexes accept a two-digit match exactly when its value lies in
`[lo2, hi2]`, and otherwise fall back to a single digit whose value must
be at least `lo1` (`lo1 = 1` for `%m`/`%d`, `0` for `%H`/`%M`/`%S`). -/
def parseNum2 (lo2 hi2 lo1 : Nat) : List Char → Option (Nat × List Char)
  | c1 :: c2 :: rest =>
    if isDig c1 && isDig c2 && lo2 ≤ digVal c1 * 10 + digVal c2
        && digVal c1 * 10 + digVal c2 ≤ hi2 then
      some (digVal c1 * 10 + digVal c2, rest)
    else if isDig c1 && lo1 ≤ digVal c1 then some (digVal c1, c2 :: rest)
    else none
  | [c1] => if isDig c1 && lo1 ≤ digVal c1 then some (digVal c1, []) else none
  | [] => none

/-- Consume one expected literal character. -/
def expectChar (ch : Char) : List Char → Option (List Char)
  | c :: rest => if c = ch then some rest else none
  | [] => none

/-- `datetime.strptime(s, "%Y-%m-%dT%H:%M:%S")`: the regex phase parses
the six fields (month 1-12, day 1-31, hour 0-23, minute 0-59, second 0-61,
no unconverted trailing data), then the `datetime` constructor validates
the day against the month length, rejects leap seconds and year 0.
Failure (`ValueError`) is `none`. -/
def parseTimestamp (s : String) : Option DateTime := do
  let (y, r1) ← parseY s.data
  let r2 ← expectChar '-' r1
  let (mo, r3) ← parseNum2 1 12 1 r2
  let r4 ← expectChar '-' r3
  let (d, r5) ← parseNum2 1 31 1 r4
  let r6 ← expectChar 'T' r5
  let (h, r7) ← parseNum2 0 23 0 r6
  let r8 ← expectChar ':' r7
  let (mi, r9) ← parseNum2 0 59 0 r8
  let r10 ← expectChar ':' r9
  let (sec, r11) ← parseNum2 0 61 0 r10
  if r11 = [] && 1 ≤ y && d ≤ daysInMonth y mo && sec ≤ 59 then
    some ⟨y, mo, d, h, mi, sec, 0⟩
  else none

/-- `datetime.strptime(s, "%Y-%m-%d")` used for the CLI `--date` argument
(midnight of the parsed day, `ValueError` is `none`). -/
def parseDate (s : String) : Option DateTime := do
  let (y, r1) ← parseY s.data
  let r2 ← expectChar '-' r1
  let (mo, r3) ← parseNum2 1 12 1 r2
  let r4 ← expectChar '-' r3
  let (d, r5) ← parseNum2 1 31 1 r4
  if r5 = [] && 1 ≤ y && d ≤ daysInMonth y mo then
    some ⟨y, mo, d, 0, 0, 0, 0⟩
  else none

/-! ## Remote (S3) listing model -/

instance {ε α : Type} [DecidableEq ε] [DecidableEq α] : DecidableEq (Except ε α) :=
  fun a b =>
    match a, b with
    | .ok x, .ok y => decidable_of_iff (x = y) (by simp)
    | .ok _, .error _ => isFalse (by simp)
    | .error _, .ok _ => isFalse (by simp)
    | .error x, .error y => decidable_of_iff (x = y) (by simp)

/-- Outcome of `head_object` for one key: `.error` models a failed
metadata fetch, `.ok md` the returned user metadata dictionary. -/
abbrev HeadResult := Except Unit (List (String × String))

/-- One object of the bucket listing: its key, the store-provided
`LastModified` instant (boto3 always returns it timezone-aware, hence it
is wrapped with `aware := true` wherever the code compares it), and the
outcome of the `head_object` call for it. -/
structure S3Obj where
  key : String
  lastModified : DateTime
  headResult : HeadResult
deriving Repr

/-- Dictionary lookup (`'original-timestamp' in metadata` plus access). -/
def mdLookup (md : List (String × String)) (k : String) : Option String :=
  (md.find? (fun p => p.1 = k)).map Prod.snd

/-- Decision for a single object of the loop body of
`MonthlyArchiver.list_s3_files`: inside the `try`, fetch metadata, parse
`original-timestamp` if present (re-labeling it UTC) or else use
`LastModified`, then test `start_date <= file_date <= end_date`; any
exception in the `try` (failed fetch, `ValueError` from `strptime`, or a
`TypeError` from a mixed-awareness comparison) falls back to testing
`start_date <= obj['LastModified'] <= end_date`, whose own `TypeError`
would propagate. -/
def selectOne (start_date end_date : ADateTime) (o : S3Obj) : Except Unit Bool :=
  let tryBody : Except Unit Bool :=
    match o.headResult with
    | .error eu => .error eu
    | .ok metadata =>
      match mdLookup metadata "original-timestamp" with
      | some timestamp_str =>
        match parseTimestamp timestamp_str with
        | some d => chainedLe start_date ⟨d, true⟩ end_date
        | none => .error ()
      | none => chainedLe start_date ⟨o.lastModified, true⟩ end_date
  match tryBody with
  | .ok b => .ok b
  | .error _ => chainedLe start_date ⟨o.lastModified, true⟩ end_date

/-- The loop of `list_s3_files` over the listed objects, accumulating the
keys whose effective timestamp lies in the closed range. -/
def s3Select (start_date end_date : ADateTime) : List S3Obj → Except Unit (List String)
  | [] => .ok []
  | o :: rest =>
    match selectOne start_date end_date o with
    | .error eu => .error eu
    | .ok b =>
      match s3Select start_date end_date rest with
      | .error eu => .error eu
      | .ok tl => .ok (if b then o.key :: tl else tl)

/-- Character-list prefix test (executable model of `str.startswith`). -/
def charsPre : List Char → List Char → Bool
  | [], _ => true
  | _ :: _, [] => false
  | a :: as, b :: bs => a = b && charsPre as bs

/-- Whether string `s` starts with `pfx`. -/
def strStarts (pfx s : String) : Bool := charsPre pfx.data s.data

/-- MonthlyArchiver.list_s3_files: the paginator yields exactly the
objects whose key begins with the requested prefix; each is classified by
`selectOne`. -/
def list_s3_files (pfx : String) (objs : List S3Obj)
    (start_date end_date : ADateTime) : Except Unit (List String) :=
  s3Select start_date end_date (objs.filter (fun o => strStarts pfx o.key))

/-! ## Local listing, ZIP assembly, orchestrator and CLI models -/

/-- One regular file found by `rglob` under a top-level folder of the
data directory: `sub` is its path below the folder (so its path relative
to the data directory is `folder ++ "/" ++ sub`), `mtime` the naive
datetime `datetime.fromtimestamp(st_mtime)`. -/
structure LocalFile where
  sub : String
  mtime : DateTime
deriving Repr

/-- The local data directory: an association of top-level folder names to
their (recursively enumerated) files, in filesystem enumeration order.
A folder absent from the list models a folder that does not exist. -/
abbrev LocalDir := List (String × List LocalFile)

/-- Association-list lookup for `LocalDir` (models `folder_path.exists()`
plus enumeration). -/
def dirLookup (dir : LocalDir) (folder : String) : Option (List LocalFile) :=
  (dir.find? (fun p => p.1 = folder)).map Prod.snd

/-- The `rglob` loop of `list_local_files`: keep `folder/sub` for each
file whose naive mtime satisfies `start_date <= mtime <= end_date`
(a mixed-awareness comparison would raise and propagate: no `try` here). -/
def localSelect (folder : String) (start_date end_date : ADateTime) :
    List LocalFile → Except Unit (List String)
  | [] => .ok []
  | f :: rest =>
    match chainedLe start_date ⟨f.mtime, false⟩ end_date with
    | .error eu => .error eu
    | .ok b =>
      match localSelect folder start_date end_date rest with
      | .error eu => .error eu
      | .ok tl => .ok (if b then (folder ++ "/" ++ f.sub) :: tl else tl)

/-- MonthlyArchiver.list_local_files: an absent folder yields the empty
list immediately; otherwise the files are filtered by mtime. -/
def list_local_files (dir : LocalDir) (folder : String)
    (start_date end_date : ADateTime) : Except Unit (List String) :=
  match dirLookup dir folder with
  | none => .ok []
  | some fs => localSelect folder start_date end_date fs

/-- MonthlyArchiver.create_zip_archive: an empty input list creates no
ZIP and reports zero files; otherwise every input is written into the
archive under its original key/relative path (`arcname=file_key`), and
the count of files is returned.  The result pairs the count with the
ZIP's entry list (`none` when no ZIP file is created). -/
def create_zip_archive (files : List String) : Nat × Option (List String) :=
  if files.isEmpty then (0, none)
  else (files.length, some files)

/-- The archiver's data source: a remote bucket listing or a local data
directory (`use_s3` selects the branch taken throughout the class). -/
inductive Source where
  | s3 (objs : List S3Obj)
  | loc (dir : LocalDir)
deriving Repr

/-- Whether the source is remote (the `use_s3` flag). -/
def Source.useS3 : Source → Bool
  | .s3 _ => true
  | .loc _ => false

/-- Folder listing step of `archive_previous_month`: remote mode calls
`list_s3_files` with prefix `folder ++ "/"`, local mode calls
`list_local_files` with the folder name. -/
def listForFolder (src : Source) (folder : String)
    (start_date end_date : ADateTime) : Except Unit (List String) :=
  match src with
  | .s3 objs => list_s3_files (folder ++ "/") objs start_date end_date
  | .loc dir => list_local_files dir folder start_date end_date

/-- Decimal digits of a natural number (zero-padded to width `w`). -/
def padNum (w n : Nat) : String :=
  let s := toString n
  let k := s.length
  String.mk (List.replicate (w - k) '0') ++ s

/-- `start_date.strftime('%Y-%m')`: the month string used in the ZIP
names and statistics. -/
def fmtMonth (t : DateTime) : String := padNum 4 t.year ++ "-" ++ padNum 2 t.month

/-- Statistics dictionary returned by `archive_previous_month`. -/
structure Stats where
  month : String
  opening_files : Nat
  customer_files : Nat
  opening_zip : Option String
  customer_zip : Option String
deriving Repr, DecidableEq

/-- Per-folder block of `archive_previous_month`: when the selected list
is non-empty, build `<output>/<Folder>_<YYYY-MM>.zip` via
`create_zip_archive` and record count and path; otherwise leave the
zero/`none` statistics.  Returns (count, recorded zip path, produced ZIP
files as (path, entry arcnames)). -/
def processFolder (output_dir folder month_str : String) (files : List String) :
    Nat × Option String × List (String × List String) :=
  if files.isEmpty then (0, none, [])
  else
    let zip_path := output_dir ++ "/" ++ folder ++ "_" ++ month_str ++ ".zip"
    match create_zip_archive files with
    | (cnt, some entries) => (cnt, some zip_path, [(zip_path, entries)])
    | (cnt, none) => (cnt, none, [])

/-- MonthlyArchiver.archive_previous_month: resolve the previous-month
range (aware bounds exactly in remote mode), format the month string from
the range start, then for each of the folders Opening and Customer select
files and assemble the ZIP, accumulating the statistics dictionary and
the produced ZIP files.  A raised exception anywhere (only a
mixed-awareness comparison can raise in this model) aborts the run. -/
def archive_previous_month (src : Source) (output_dir : String)
    (reference_date : DateTime) :
    Except Unit (Stats × List (String × List String)) :=
  let se := get_previous_month_range reference_date src.useS3
  let month_str := fmtMonth se.1.dt
  match listForFolder src "Opening" se.1 se.2 with
  | .error eu => .error eu
  | .ok opening_files =>
    match listForFolder src "Customer" se.1 se.2 with
    | .error eu => .error eu
    | .ok customer_files =>
      let oRes := processFolder output_dir "Opening" month_str opening_files
      let cRes := processFolder output_dir "Customer" month_str customer_files
      .ok (⟨month_str, oRes.1, cRes.1, oRes.2.1, cRes.2.1⟩, oRes.2.2 ++ cRes.2.2)

/-- Parsed command line of monthly_archive.py. -/
structure Args where
  bucket : Option String
  local_dir : Option String
  output : String
  upload_to_s3 : Bool
  date : Option String
deriving Repr

/-- The `main` function of monthly_archive.py, as exit code plus the ZIP
files produced.  `argparse`'s `parser.error` (used for the bucket/local
combination checks and a malformed `--date`) exits the process with
status 2 before any work; after a successful run `main` returns 0; an
exception during the archive run is caught and mapped to exit status 1. -/
def mainRun (args : Args) (src : Source) (today : DateTime) :
    Nat × List (String × List String) :=
  if args.bucket.isNone && args.local_dir.isNone then (2, [])
  else if args.bucket.isSome && args.local_dir.isSome then (2, [])
  else
    let ref? : Option DateTime :=
      match args.date with
      | some ds => parseDate ds
      | none => some today
    match ref? with
    | none => (2, [])
    | some reference_date =>
      match archive_previous_month src args.output reference_date with
      | .ok (_, zips) => (0, zips)
      | .error _ => (1, [])

/-! ## Supporting lemmas -/

/-- Propositional characterization of the leap-year test. -/
theorem isLeap_iff (y : Nat) :
    isLeap y = true ↔ (y % 4 = 0 ∧ (y % 100 ≠ 0 ∨ y % 400 = 0)) := by
  simp [isLeap, Bool.and_eq_true, Bool.or_eq_true, bne_iff_ne, decide_eq_true_eq]

/-- Every month has at least one day. -/
theorem one_le_daysInMonth (y m : Nat) : 1 ≤ daysInMonth y m := by
  unfold daysInMonth
  split_ifs <;> omega

/-- The day count before January 1 grows by the length of the year. -/
theorem daysBeforeYear_succ (y : Nat) (hy : 1 ≤ y) :
    daysBeforeYear (y + 1) = daysBeforeYear y + (if isLeap y then 366 else 365) := by
  by_cases hL : isLeap y = true
  · rw [if_pos hL]
    rw [isLeap_iff] at hL
    unfold daysBeforeYear
    omega
  · rw [if_neg hL]
    rw [isLeap_iff] at hL
    unfold daysBeforeYear
    omega

/-- Unrolling step for the in-year day count. -/
theorem daysBeforeMonth_step (y k : Nat) :
    daysBeforeMonth y (k + 2) = daysBeforeMonth y (k + 1) + daysInMonth y (k + 1) := rfl

/-! ## Claim theorems -/

/-- C1: for every requested byte size S and each kind in pdf, xml, the
content synthesizer produces a byte sequence of length exactly
`max S (fixed skeleton length of the kind)`; in particular the fixed
header/body/trailer skeleton is never truncated when S is smaller than
it.  The oracle `rand` stands for the random choices of the XML padding
(the length does not depend on it). -/
theorem c1_synthesizer_length (size_bytes : Nat) (rand : Nat → Nat) :
    (create_dummy_pdf size_bytes).length = max size_bytes pdfSkeletonLen ∧
    (create_dummy_xml size_bytes rand).length = max size_bytes xmlSkeletonLen := by
  constructor
  · simp [create_dummy_pdf, pdfSkeletonLen]
    omega
  · simp [create_dummy_xml, xmlSkeletonLen]
    omega

/-- C2: for every valid reference date (other than the very first
representable month, where Python's datetime subtraction would overflow),
`get_previous_month_range` returns a start that is the first instant
(00:00:00.000000) of day 1 of the month preceding the reference month,
an end that is exactly one microsecond before the first instant of the
reference month, with `start.month = end.month` and `start ≤ end`. -/
theorem c2_previous_month_range (ref : DateTime) (hv : ref.Valid)
    (hmin : 2 ≤ ref.year ∨ 2 ≤ ref.month) (use_s3 : Bool) :
    ((get_previous_month_range ref use_s3).1.dt.day = 1 ∧
       (get_previous_month_range ref use_s3).1.dt.hour = 0 ∧
       (get_previous_month_range ref use_s3).1.dt.minute = 0 ∧
       (get_previous_month_range ref use_s3).1.dt.second = 0 ∧
       (get_previous_month_range ref use_s3).1.dt.microsecond = 0) ∧
    (((get_previous_month_range ref use_s3).1.dt.year,
        (get_previous_month_range ref use_s3).1.dt.month) =
      if 2 ≤ ref.month then (ref.year, ref.month - 1) else (ref.year - 1, 12)) ∧
    dtMicros (get_previous_month_range ref use_s3).2.dt + 1 =
      dtMicros ⟨ref.year, ref.month, 1, 0, 0, 0, 0⟩ ∧
    (get_previous_month_range ref use_s3).1.dt.month =
      (get_previous_month_range ref use_s3).2.dt.month ∧
    dtMicros (get_previous_month_range ref use_s3).1.dt ≤
      dtMicros (get_previous_month_range ref use_s3).2.dt := by
  obtain ⟨hy1, hm1, hm12, hd1, hdm, hh, hmi, hs, hus⟩ := hv
  by_cases hm : 2 ≤ ref.month
  · have hkey : get_previous_month_range ref use_s3 =
        (⟨⟨ref.year, ref.month - 1, 1, 0, 0, 0, 0⟩, use_s3⟩,
         ⟨⟨ref.year, ref.month - 1, daysInMonth ref.year (ref.month - 1),
            23, 59, 59, 999999⟩, use_s3⟩) := by
      unfold get_previous_month_range subOneMicro subOneDay
      simp only []
      split_ifs <;> simp_all <;> omega
    rw [hkey]
    have hstep : daysBeforeMonth ref.year ref.month =
        daysBeforeMonth ref.year (ref.month - 1) + daysInMonth ref.year (ref.month - 1) := by
      obtain ⟨k, hk⟩ : ∃ k, ref.month = k + 2 := ⟨ref.month - 2, by omega⟩
      rw [hk]
      have hk1 : k + 2 - 1 = k + 1 := by omega
      rw [hk1]
      exact daysBeforeMonth_step ref.year k
    have hpos := one_le_daysInMonth ref.year (ref.month - 1)
    refine ⟨⟨rfl, rfl, rfl, rfl, rfl⟩, by rw [if_pos hm], ?_, rfl, ?_⟩
    · unfold dtMicros
      simp only []
      omega
    · unfold dtMicros
      simp only []
      omega
  · have hm1' : ref.month = 1 := by omega
    have hy2 : 2 ≤ ref.year := by omega
    have hkey : get_previous_month_range ref use_s3 =
        (⟨⟨ref.year - 1, 12, 1, 0, 0, 0, 0⟩, use_s3⟩,
         ⟨⟨ref.year - 1, 12, 31, 23, 59, 59, 999999⟩, use_s3⟩) := by
      unfold get_previous_month_range subOneMicro subOneDay
      simp only []
      split_ifs <;> simp_all <;> omega
    rw [hkey]
    have e2 : daysBeforeMonth (ref.year - 1) 2 = daysBeforeMonth (ref.year - 1) 1 + daysInMonth (ref.year - 1) 1 := rfl
    have e3 : daysBeforeMonth (ref.year - 1) 3 = daysBeforeMonth (ref.year - 1) 2 + daysInMonth (ref.year - 1) 2 := rfl
    have e4 : daysBeforeMonth (ref.year - 1) 4 = daysBeforeMonth (ref.year - 1) 3 + daysInMonth (ref.year - 1) 3 := rfl
    have e5 : daysBeforeMonth (ref.year - 1) 5 = daysBeforeMonth (ref.year - 1) 4 + daysInMonth (ref.year - 1) 4 := rfl
    have e6 : daysBeforeMonth (ref.year - 1) 6 = daysBeforeMonth (ref.year - 1) 5 + daysInMonth (ref.year - 1) 5 := rfl
    have e7 : daysBeforeMonth (ref.year - 1) 7 = daysBeforeMonth (ref.year - 1) 6 + daysInMonth (ref.year - 1) 6 := rfl
    have e8 : daysBeforeMonth (ref.year - 1) 8 = daysBeforeMonth (ref.year - 1) 7 + daysInMonth (ref.year - 1) 7 := rfl
    have e9 : daysBeforeMonth (ref.year - 1) 9 = daysBeforeMonth (ref.year - 1) 8 + daysInMonth (ref.year - 1) 8 := rfl
    have e10 : daysBeforeMonth (ref.year - 1) 10 = daysBeforeMonth (ref.year - 1) 9 + daysInMonth (ref.year - 1) 9 := rfl
    have e11 : daysBeforeMonth (ref.year - 1) 11 = daysBeforeMonth (ref.year - 1) 10 + daysInMonth (ref.year - 1) 10 := rfl
    have e12 : daysBeforeMonth (ref.year - 1) 12 = daysBeforeMonth (ref.year - 1) 11 + daysInMonth (ref.year - 1) 11 := rfl
    have e1 : daysBeforeMonth (ref.year - 1) 1 = 0 := rfl
    have f1 : daysInMonth (ref.year - 1) 1 = 31 := rfl
    have f3 : daysInMonth (ref.year - 1) 3 = 31 := rfl
    have f4 : daysInMonth (ref.year - 1) 4 = 30 := rfl
    have f5 : daysInMonth (ref.year - 1) 5 = 31 := rfl
    have f6 : daysInMonth (ref.year - 1) 6 = 30 := rfl
    have f7 : daysInMonth (ref.year - 1) 7 = 31 := rfl
    have f8 : daysInMonth (ref.year - 1) 8 = 31 := rfl
    have f9 : daysInMonth (ref.year - 1) 9 = 30 := rfl
    have f10 : daysInMonth (ref.year - 1) 10 = 31 := rfl
    have f11 : daysInMonth (ref.year - 1) 11 = 30 := rfl
    have f2 : daysInMonth (ref.year - 1) 2 = if isLeap (ref.year - 1) then 29 else 28 := rfl
    have g1 : daysBeforeMonth ref.year 1 = 0 := rfl
    have hD : daysBeforeYear (ref.year - 1 + 1) =
        daysBeforeYear (ref.year - 1) + (if isLeap (ref.year - 1) then 366 else 365) :=
      daysBeforeYear_succ (ref.year - 1) (by omega)
    have hyy : ref.year - 1 + 1 = ref.year := by omega
    rw [hyy] at hD
    refine ⟨⟨rfl, rfl, rfl, rfl, rfl⟩, by rw [if_neg hm], ?_, rfl, ?_⟩
    · unfold dtMicros
      simp only [hm1']
      cases hL : isLeap (ref.year - 1) <;> simp [hL] at f2 hD <;> omega
    · unfold dtMicros
      simp only []
      omega

/-- Witness for C2 at the concrete reference date 2025-10-15 12:30:05.000007. -/
theorem c2_previous_month_range_witness :
    ((get_previous_month_range ⟨2025, 10, 15, 12, 30, 5, 7⟩ true).1.dt.day = 1 ∧
       (get_previous_month_range ⟨2025, 10, 15, 12, 30, 5, 7⟩ true).1.dt.hour = 0 ∧
       (get_previous_month_range ⟨2025, 10, 15, 12, 30, 5, 7⟩ true).1.dt.minute = 0 ∧
       (get_previous_month_range ⟨2025, 10, 15, 12, 30, 5, 7⟩ true).1.dt.second = 0 ∧
       (get_previous_month_range ⟨2025, 10, 15, 12, 30, 5, 7⟩ true).1.dt.microsecond = 0) ∧
    (((get_previous_month_range ⟨2025, 10, 15, 12, 30, 5, 7⟩ true).1.dt.year,
        (get_previous_month_range ⟨2025, 10, 15, 12, 30, 5, 7⟩ true).1.dt.month) =
      if 2 ≤ (10 : Nat) then ((2025 : Nat), (10 : Nat) - 1) else ((2025 : Nat) - 1, 12)) ∧
    dtMicros (get_previous_month_range ⟨2025, 10, 15, 12, 30, 5, 7⟩ true).2.dt + 1 =
      dtMicros ⟨2025, 10, 1, 0, 0, 0, 0⟩ ∧
    (get_previous_month_range ⟨2025, 10, 15, 12, 30, 5, 7⟩ true).1.dt.month =
      (get_previous_month_range ⟨2025, 10, 15, 12, 30, 5, 7⟩ true).2.dt.month ∧
    dtMicros (get_previous_month_range ⟨2025, 10, 15, 12, 30, 5, 7⟩ true).1.dt ≤
      dtMicros (get_previous_month_range ⟨2025, 10, 15, 12, 30, 5, 7⟩ true).2.dt :=
  c2_previous_month_range ⟨2025, 10, 15, 12, 30, 5, 7⟩ (by decide) (Or.inl (by decide)) true

/-- Chained comparison with matching awareness on all three operands
never raises and returns the conjunction of the two comparisons. -/
theorem chainedLe_same (lo hi x : ADateTime)
    (hlo : lo.aware = x.aware) (hhi : hi.aware = x.aware) :
    chainedLe lo x hi = .ok (dtLe lo.dt x.dt && dtLe x.dt hi.dt) := by
  unfold chainedLe awLe
  simp [hlo, hhi]
  cases dtLe lo.dt x.dt <;> simp

/-- With aware bounds, classifying one remote object never raises (every
path, the metadata-error fallback included, compares aware to aware). -/
theorem selectOne_aware_ok (s e : ADateTime) (o : S3Obj)
    (hs : s.aware = true) (he : e.aware = true) :
    ∃ b, selectOne s e o = .ok b := by
  have hf := chainedLe_same s e ⟨o.lastModified, true⟩ hs he
  unfold selectOne
  simp only []
  cases hh : o.headResult with
  | error eu =>
    simp only [hh]
    rw [hf]
    exact ⟨_, rfl⟩
  | ok md =>
    simp only [hh]
    cases hl : mdLookup md "original-timestamp" with
    | none =>
      simp only [hl]
      rw [hf]
      exact ⟨_, rfl⟩
    | some ts =>
      simp only [hl]
      cases hp : parseTimestamp ts with
      | none =>
        simp only [hp]
        rw [hf]
        exact ⟨_, rfl⟩
      | some d =>
        simp only [hp]
        rw [chainedLe_same s e ⟨d, true⟩ hs he]
        exact ⟨_, rfl⟩

/-- With aware bounds the whole remote listing loop never raises. -/
theorem s3Select_aware_ok (s e : ADateTime) (hs : s.aware = true) (he : e.aware = true)
    (objs : List S3Obj) : ∃ l, s3Select s e objs = .ok l := by
  induction objs with
  | nil => exact ⟨[], rfl⟩
  | cons o rest ih =>
    obtain ⟨b, hb⟩ := selectOne_aware_ok s e o hs he
    obtain ⟨tl, htl⟩ := ih
    exact ⟨if b then o.key :: tl else tl, by simp [s3Select, hb, htl]⟩

/-- With naive bounds the local listing loop never raises (mtimes are
naive by construction). -/
theorem localSelect_naive_ok (folder : String) (s e : ADateTime)
    (hs : s.aware = false) (he : e.aware = false)
    (fs : List LocalFile) : ∃ l, localSelect folder s e fs = .ok l := by
  induction fs with
  | nil => exact ⟨[], rfl⟩
  | cons f rest ih =>
    have hch := chainedLe_same s e ⟨f.mtime, false⟩ hs he
    obtain ⟨tl, htl⟩ := ih
    refine ⟨if dtLe s.dt f.mtime && dtLe f.mtime e.dt then (folder ++ "/" ++ f.sub) :: tl
            else tl, ?_⟩
    simp only [localSelect, hch, htl]

/-- The per-folder block leaves zero statistics and produces nothing on
an empty selection. -/
theorem processFolder_empty (output_dir folder ms : String) :
    processFolder output_dir folder ms [] = (0, none, []) := rfl

/-- The per-folder block on a non-empty selection records the file count
and the conventional ZIP path, and produces one ZIP whose entries are the
selected identifiers in order. -/
theorem processFolder_nonempty (output_dir folder ms : String) (files : List String)
    (h : files ≠ []) :
    processFolder output_dir folder ms files =
      (files.length, some (output_dir ++ "/" ++ folder ++ "_" ++ ms ++ ".zip"),
        [(output_dir ++ "/" ++ folder ++ "_" ++ ms ++ ".zip", files)]) := by
  unfold processFolder create_zip_archive
  simp [h]

/-- Closed form of a run of the orchestrator when both folder listings
succeed. -/
theorem archive_previous_month_eq (src : Source) (output_dir : String) (ref : DateTime)
    (ofs cfs : List String)
    (ho : listForFolder src "Opening" (get_previous_month_range ref src.useS3).1
        (get_previous_month_range ref src.useS3).2 = .ok ofs)
    (hc : listForFolder src "Customer" (get_previous_month_range ref src.useS3).1
        (get_previous_month_range ref src.useS3).2 = .ok cfs) :
    archive_previous_month src output_dir ref =
      .ok (⟨fmtMonth (get_previous_month_range ref src.useS3).1.dt,
            (processFolder output_dir "Opening"
              (fmtMonth (get_previous_month_range ref src.useS3).1.dt) ofs).1,
            (processFolder output_dir "Customer"
              (fmtMonth (get_previous_month_range ref src.useS3).1.dt) cfs).1,
            (processFolder output_dir "Opening"
              (fmtMonth (get_previous_month_range ref src.useS3).1.dt) ofs).2.1,
            (processFolder output_dir "Customer"
              (fmtMonth (get_previous_month_range ref src.useS3).1.dt) cfs).2.1⟩,
           (processFolder output_dir "Opening"
              (fmtMonth (get_previous_month_range ref src.useS3).1.dt) ofs).2.2 ++
           (processFolder output_dir "Customer"
              (fmtMonth (get_previous_month_range ref src.useS3).1.dt) cfs).2.2) := by
  unfold archive_previous_month
  simp only []
  rw [ho, hc]

/-- A successful run implies both folder listings succeeded. -/
theorem archive_ok_elim (src : Source) (output_dir : String) (ref : DateTime)
    (st : Stats) (zips : List (String × List String))
    (hrun : archive_previous_month src output_dir ref = .ok (st, zips)) :
    ∃ ofs cfs,
      listForFolder src "Opening" (get_previous_month_range ref src.useS3).1
        (get_previous_month_range ref src.useS3).2 = .ok ofs ∧
      listForFolder src "Customer" (get_previous_month_range ref src.useS3).1
        (get_previous_month_range ref src.useS3).2 = .ok cfs := by
  unfold archive_previous_month at hrun
  simp only [] at hrun
  cases ho : listForFolder src "Opening" (get_previous_month_range ref src.useS3).1
      (get_previous_month_range ref src.useS3).2 with
  | error eu =>
    rw [ho] at hrun
    exact absurd hrun (by simp)
  | ok ofs =>
    rw [ho] at hrun
    cases hc : listForFolder src "Customer" (get_previous_month_range ref src.useS3).1
        (get_previous_month_range ref src.useS3).2 with
    | error eu =>
      rw [hc] at hrun
      exact absurd hrun (by simp)
    | ok cfs => exact ⟨ofs, cfs, rfl, rfl⟩

/-- C3: for every remote object carrying a parseable `original-timestamp`
metadata value, the selector decides membership by that parsed value
(re-labeled UTC) and not by the store's last-modified timestamp: the
decision is the range test on the parsed instant, it is unchanged under
any replacement of the object's last-modified field, and the listing
keeps that decision for the object while processing the remaining
objects. -/
theorem c3_metadata_preferred (start_date end_date : ADateTime) (o : S3Obj)
    (md : List (String × String)) (ts : String) (d : DateTime) (lm : DateTime)
    (pfx : String) (rest : List S3Obj)
    (hhead : o.headResult = .ok md)
    (hts : mdLookup md "original-timestamp" = some ts)
    (hparse : parseTimestamp ts = some d)
    (hs : start_date.aware = true) (he : end_date.aware = true)
    (hpfx : strStarts pfx o.key = true) :
    selectOne start_date end_date o =
      .ok (dtLe start_date.dt d && dtLe d end_date.dt) ∧
    selectOne start_date end_date { o with lastModified := lm } =
      selectOne start_date end_date o ∧
    list_s3_files pfx (o :: rest) start_date end_date =
      (list_s3_files pfx rest start_date end_date).map
        (fun tl => if dtLe start_date.dt d && dtLe d end_date.dt then o.key :: tl
                   else tl) := by
  have hch := chainedLe_same start_date end_date ⟨d, true⟩ hs he
  have h1 : selectOne start_date end_date o =
      .ok (dtLe start_date.dt d && dtLe d end_date.dt) := by
    unfold selectOne
    rw [hhead]
    simp [hts, hparse, hch]
  refine ⟨h1, ?_, ?_⟩
  · unfold selectOne
    rw [hhead]
    simp [hts, hparse, hch]
  · unfold list_s3_files
    simp only [List.filter_cons, hpfx, if_true]
    cases hres : s3Select start_date end_date (rest.filter (fun o => strStarts pfx o.key)) <;>
      simp [s3Select, h1, hres, Except.map]

/-- Witness for C3: a September 2025 window, an object whose metadata
timestamp (2025-09-15) is inside the window while its last-modified
(2025-10-05) is outside: the object is selected, and replacing
last-modified changes nothing. -/
theorem c3_metadata_preferred_witness :
    selectOne ⟨⟨2025, 9, 1, 0, 0, 0, 0⟩, true⟩ ⟨⟨2025, 9, 30, 23, 59, 59, 999999⟩, true⟩
        ⟨"Opening/TXN100001/IDD.pdf", ⟨2025, 10, 5, 0, 0, 0, 0⟩,
          .ok [("original-timestamp", "2025-09-15T10:00:00")]⟩ =
      .ok (dtLe ⟨2025, 9, 1, 0, 0, 0, 0⟩ ⟨2025, 9, 15, 10, 0, 0, 0⟩ &&
        dtLe ⟨2025, 9, 15, 10, 0, 0, 0⟩ ⟨2025, 9, 30, 23, 59, 59, 999999⟩) ∧
    selectOne ⟨⟨2025, 9, 1, 0, 0, 0, 0⟩, true⟩ ⟨⟨2025, 9, 30, 23, 59, 59, 999999⟩, true⟩
        ⟨"Opening/TXN100001/IDD.pdf", ⟨2024, 1, 1, 0, 0, 0, 0⟩,
          .ok [("original-timestamp", "2025-09-15T10:00:00")]⟩ =
      selectOne ⟨⟨2025, 9, 1, 0, 0, 0, 0⟩, true⟩ ⟨⟨2025, 9, 30, 23, 59, 59, 999999⟩, true⟩
        ⟨"Opening/TXN100001/IDD.pdf", ⟨2025, 10, 5, 0, 0, 0, 0⟩,
          .ok [("original-timestamp", "2025-09-15T10:00:00")]⟩ ∧
    list_s3_files "Opening/"
        [⟨"Opening/TXN100001/IDD.pdf", ⟨2025, 10, 5, 0, 0, 0, 0⟩,
          .ok [("original-timestamp", "2025-09-15T10:00:00")]⟩]
        ⟨⟨2025, 9, 1, 0, 0, 0, 0⟩, true⟩ ⟨⟨2025, 9, 30, 23, 59, 59, 999999⟩, true⟩ =
      (list_s3_files "Opening/" []
          ⟨⟨2025, 9, 1, 0, 0, 0, 0⟩, true⟩ ⟨⟨2025, 9, 30, 23, 59, 59, 999999⟩, true⟩).map
        (fun tl => if dtLe ⟨2025, 9, 1, 0, 0, 0, 0⟩ ⟨2025, 9, 15, 10, 0, 0, 0⟩ &&
            dtLe ⟨2025, 9, 15, 10, 0, 0, 0⟩ ⟨2025, 9, 30, 23, 59, 59, 999999⟩ then
          "Opening/TXN100001/IDD.pdf" :: tl else tl) :=
  c3_metadata_preferred ⟨⟨2025, 9, 1, 0, 0, 0, 0⟩, true⟩
    ⟨⟨2025, 9, 30, 23, 59, 59, 999999⟩, true⟩
    ⟨"Opening/TXN100001/IDD.pdf", ⟨2025, 10, 5, 0, 0, 0, 0⟩,
      .ok [("original-timestamp", "2025-09-15T10:00:00")]⟩
    [("original-timestamp", "2025-09-15T10:00:00")] "2025-09-15T10:00:00"
    ⟨2025, 9, 15, 10, 0, 0, 0⟩ ⟨2024, 1, 1, 0, 0, 0, 0⟩ "Opening/" []
    rfl (by decide) (by decide) rfl rfl (by decide)

/-- C4: for every remote object whose metadata fetch fails, or whose
metadata lacks the `original-timestamp` key, or whose value does not
parse, the selector neither raises nor aborts: that object's membership
is decided by the store's last-modified timestamp and the remaining
objects are still processed. -/
theorem c4_metadata_error_fallback (start_date end_date : ADateTime)
    (o : S3Obj) (rest : List S3Obj)
    (hs : start_date.aware = true) (he : end_date.aware = true)
    (hfail : o.headResult = .error () ∨
      (∃ md, o.headResult = .ok md ∧ mdLookup md "original-timestamp" = none) ∨
      (∃ md ts, o.headResult = .ok md ∧ mdLookup md "original-timestamp" = some ts ∧
        parseTimestamp ts = none)) :
    selectOne start_date end_date o =
      .ok (dtLe start_date.dt o.lastModified && dtLe o.lastModified end_date.dt) ∧
    s3Select start_date end_date (o :: rest) =
      (s3Select start_date end_date rest).map
        (fun tl => if dtLe start_date.dt o.lastModified && dtLe o.lastModified end_date.dt
                   then o.key :: tl else tl) := by
  have hch := chainedLe_same start_date end_date ⟨o.lastModified, true⟩ hs he
  have h1 : selectOne start_date end_date o =
      .ok (dtLe start_date.dt o.lastModified && dtLe o.lastModified end_date.dt) := by
    rcases hfail with h | ⟨md, hmd, hnone⟩ | ⟨md, ts, hmd, hts, hparse⟩
    · unfold selectOne
      rw [h]
      simp [hch]
    · unfold selectOne
      rw [hmd]
      simp [hnone, hch]
    · unfold selectOne
      rw [hmd]
      simp [hts, hparse, hch]
  refine ⟨h1, ?_⟩
  cases hres : s3Select start_date end_date rest <;> simp [s3Select, h1, hres, Except.map]

/-- Witness for C4: an object whose metadata fetch fails, followed by one
more object; the first falls back to its last-modified (2025-09-10,
inside the window) and the second is still processed. -/
theorem c4_metadata_error_fallback_witness :
    selectOne ⟨⟨2025, 9, 1, 0, 0, 0, 0⟩, true⟩ ⟨⟨2025, 9, 30, 23, 59, 59, 999999⟩, true⟩
        ⟨"Opening/TXN100002/KYC.pdf", ⟨2025, 9, 10, 0, 0, 0, 0⟩, .error ()⟩ =
      .ok (dtLe ⟨2025, 9, 1, 0, 0, 0, 0⟩ ⟨2025, 9, 10, 0, 0, 0, 0⟩ &&
        dtLe ⟨2025, 9, 10, 0, 0, 0, 0⟩ ⟨2025, 9, 30, 23, 59, 59, 999999⟩) ∧
    s3Select ⟨⟨2025, 9, 1, 0, 0, 0, 0⟩, true⟩ ⟨⟨2025, 9, 30, 23, 59, 59, 999999⟩, true⟩
        [⟨"Opening/TXN100002/KYC.pdf", ⟨2025, 9, 10, 0, 0, 0, 0⟩, .error ()⟩,
         ⟨"Opening/TXN100003/PID.pdf", ⟨2025, 9, 11, 0, 0, 0, 0⟩, .error ()⟩] =
      (s3Select ⟨⟨2025, 9, 1, 0, 0, 0, 0⟩, true⟩ ⟨⟨2025, 9, 30, 23, 59, 59, 999999⟩, true⟩
          [⟨"Opening/TXN100003/PID.pdf", ⟨2025, 9, 11, 0, 0, 0, 0⟩, .error ()⟩]).map
        (fun tl => if dtLe ⟨2025, 9, 1, 0, 0, 0, 0⟩ ⟨2025, 9, 10, 0, 0, 0, 0⟩ &&
            dtLe ⟨2025, 9, 10, 0, 0, 0, 0⟩ ⟨2025, 9, 30, 23, 59, 59, 999999⟩ then
          "Opening/TXN100002/KYC.pdf" :: tl else tl) :=
  c4_metadata_error_fallback ⟨⟨2025, 9, 1, 0, 0, 0, 0⟩, true⟩
    ⟨⟨2025, 9, 30, 23, 59, 59, 999999⟩, true⟩
    ⟨"Opening/TXN100002/KYC.pdf", ⟨2025, 9, 10, 0, 0, 0, 0⟩, .error ()⟩
    [⟨"Opening/TXN100003/PID.pdf", ⟨2025, 9, 11, 0, 0, 0, 0⟩, .error ()⟩]
    rfl rfl (Or.inl rfl)

/-- C5: the archive assembler called on an empty file list creates no ZIP
and returns a count of zero; consequently, when both folder selectors
return empty sets, the orchestrator completes without error with zero
counts, no archive paths, and no ZIP produced. -/
theorem c5_empty_input (src : Source) (output_dir : String) (ref : DateTime)
    (ho : listForFolder src "Opening" (get_previous_month_range ref src.useS3).1
        (get_previous_month_range ref src.useS3).2 = .ok [])
    (hc : listForFolder src "Customer" (get_previous_month_range ref src.useS3).1
        (get_previous_month_range ref src.useS3).2 = .ok []) :
    create_zip_archive [] = (0, none) ∧
    archive_previous_month src output_dir ref =
      .ok (⟨fmtMonth (get_previous_month_range ref src.useS3).1.dt, 0, 0, none, none⟩,
        []) := by
  refine ⟨rfl, ?_⟩
  rw [archive_previous_month_eq src output_dir ref [] [] ho hc]
  rfl

/-- Witness for C5: a local data directory whose Opening and Customer
folders are both empty, reference date 2025-10-15. -/
theorem c5_empty_input_witness :
    create_zip_archive [] = (0, none) ∧
    archive_previous_month (.loc [("Opening", []), ("Customer", [])]) "out"
        ⟨2025, 10, 15, 0, 0, 0, 0⟩ =
      .ok (⟨fmtMonth (get_previous_month_range ⟨2025, 10, 15, 0, 0, 0, 0⟩
          (Source.loc [("Opening", []), ("Customer", [])]).useS3).1.dt, 0, 0, none, none⟩,
        []) :=
  c5_empty_input (.loc [("Opening", []), ("Customer", [])]) "out"
    ⟨2025, 10, 15, 0, 0, 0, 0⟩ (by decide) (by decide)

/-- C7: every run that selects a non-empty file set for a folder in
Opening, Customer produces a ZIP at
`<output>/<Folder>_<YYYY-MM>.zip` — the month string being taken from the
start of the resolved previous-month interval — whose entries are exactly
the selected identifiers, each stored under its original relative path. -/
theorem c7_zip_naming_entries (src : Source) (output_dir : String) (ref : DateTime)
    (folder : String) (files : List String) (st : Stats)
    (zips : List (String × List String))
    (hf : folder = "Opening" ∨ folder = "Customer")
    (hsel : listForFolder src folder (get_previous_month_range ref src.useS3).1
        (get_previous_month_range ref src.useS3).2 = .ok files)
    (hne : files ≠ [])
    (hrun : archive_previous_month src output_dir ref = .ok (st, zips)) :
    (output_dir ++ "/" ++ folder ++ "_" ++
        fmtMonth (get_previous_month_range ref src.useS3).1.dt ++ ".zip", files) ∈ zips := by
  obtain ⟨ofs, cfs, ho, hc⟩ := archive_ok_elim src output_dir ref st zips hrun
  rw [archive_previous_month_eq src output_dir ref ofs cfs ho hc] at hrun
  have hz : zips =
      (processFolder output_dir "Opening"
        (fmtMonth (get_previous_month_range ref src.useS3).1.dt) ofs).2.2 ++
      (processFolder output_dir "Customer"
        (fmtMonth (get_previous_month_range ref src.useS3).1.dt) cfs).2.2 := by
    have h := Except.ok.inj hrun
    exact (congrArg Prod.snd h).symm
  rcases hf with rfl | rfl
  · have hofs : ofs = files := Except.ok.inj (ho.symm.trans hsel)
    subst hofs
    rw [hz, processFolder_nonempty output_dir "Opening" _ ofs hne]
    simp
  · have hcfs : cfs = files := Except.ok.inj (hc.symm.trans hsel)
    subst hcfs
    rw [hz, processFolder_nonempty output_dir "Customer" _ cfs hne]
    simp

/-- Witness for C7, the scenario of the specification: local mode, one
file Opening/TXN100000/IDD.pdf with mtime 2025-09-20 inside September
2025, reference date 2025-10-15; the run produces Opening_2025-09.zip
containing exactly that entry at its original relative path. -/
theorem c7_zip_naming_entries_witness :
    ("out" ++ "/" ++ "Opening" ++ "_" ++
      fmtMonth (get_previous_month_range ⟨2025, 10, 15, 0, 0, 0, 0⟩
        (Source.loc [("Opening",
          [⟨"TXN100000/IDD.pdf", ⟨2025, 9, 20, 10, 0, 0, 0⟩⟩])]).useS3).1.dt ++ ".zip",
     ["Opening/TXN100000/IDD.pdf"]) ∈
      [("out/Opening_2025-09.zip", ["Opening/TXN100000/IDD.pdf"])] :=
  c7_zip_naming_entries
    (.loc [("Opening", [⟨"TXN100000/IDD.pdf", ⟨2025, 9, 20, 10, 0, 0, 0⟩⟩])]) "out"
    ⟨2025, 10, 15, 0, 0, 0, 0⟩ "Opening" ["Opening/TXN100000/IDD.pdf"]
    ⟨"2025-09", 1, 0, some "out/Opening_2025-09.zip", none⟩
    [("out/Opening_2025-09.zip", ["Opening/TXN100000/IDD.pdf"])]
    (Or.inl rfl) (by decide) (by decide) (by decide)

/-- C8: both interval bounds carry the UTC-aware label exactly in remote
mode and stay naive in local mode; every effective timestamp the remote
selector compares (parsed metadata value or store last-modified) is
aware and every local mtime is naive, so no comparison between an aware
and a naive instant occurs on any path — the selectors never raise the
mixed-comparison `TypeError` modelled by `Except.error`, metadata-error
fallback path included. -/
theorem c8_comparison_domains (ref : DateTime) (pfx folder : String)
    (objs : List S3Obj) (dir : LocalDir) :
    (get_previous_month_range ref true).1.aware = true ∧
    (get_previous_month_range ref true).2.aware = true ∧
    (get_previous_month_range ref false).1.aware = false ∧
    (get_previous_month_range ref false).2.aware = false ∧
    (∀ o : S3Obj, ∃ b, selectOne (get_previous_month_range ref true).1
        (get_previous_month_range ref true).2 o = .ok b) ∧
    (∃ l, list_s3_files pfx objs (get_previous_month_range ref true).1
        (get_previous_month_range ref true).2 = .ok l) ∧
    (∃ l, list_local_files dir folder (get_previous_month_range ref false).1
        (get_previous_month_range ref false).2 = .ok l) := by
  refine ⟨rfl, rfl, rfl, rfl, ?_, ?_, ?_⟩
  · intro o
    exact selectOne_aware_ok _ _ o rfl rfl
  · exact s3Select_aware_ok _ _ rfl rfl _
  · unfold list_local_files
    cases dirLookup dir folder with
    | none => exact ⟨[], rfl⟩
    | some fs => exact localSelect_naive_ok folder _ _ rfl rfl fs

/-- C9: the local-mode selector returns the empty list, rather than
raising, when the requested folder does not exist under the data
directory, and its answer is the same as for a present-but-empty
folder. -/
theorem c9_missing_folder (dir : LocalDir) (folder : String) (s e : ADateTime)
    (habs : dirLookup dir folder = none) :
    list_local_files dir folder s e = .ok [] ∧
    list_local_files dir folder s e =
      list_local_files ((folder, []) :: dir) folder s e := by
  have h2 : dirLookup ((folder, []) :: dir) folder = some [] := by
    simp [dirLookup]
  constructor
  · simp [list_local_files, habs]
  · simp [list_local_files, habs, h2, localSelect]

/-- Witness for C9: a data directory containing only a Customer folder;
listing Opening returns the empty list. -/
theorem c9_missing_folder_witness :
    list_local_files [("Customer", [])] "Opening"
        ⟨⟨2025, 9, 1, 0, 0, 0, 0⟩, false⟩ ⟨⟨2025, 9, 30, 23, 59, 59, 999999⟩, false⟩ =
      .ok [] ∧
    list_local_files [("Customer", [])] "Opening"
        ⟨⟨2025, 9, 1, 0, 0, 0, 0⟩, false⟩ ⟨⟨2025, 9, 30, 23, 59, 59, 999999⟩, false⟩ =
      list_local_files [("Opening", []), ("Customer", [])] "Opening"
        ⟨⟨2025, 9, 1, 0, 0, 0, 0⟩, false⟩ ⟨⟨2025, 9, 30, 23, 59, 59, 999999⟩, false⟩ :=
  c9_missing_folder [("Customer", [])] "Opening"
    ⟨⟨2025, 9, 1, 0, 0, 0, 0⟩, false⟩ ⟨⟨2025, 9, 30, 23, 59, 59, 999999⟩, false⟩
    rfl

/-- C10: in the statistics of every completed run, each folder's archive
path is non-None exactly when its file count is positive, and a non-None
path comes with a count equal to the number of files the selector
returned for that folder. -/
theorem c10_stats_invariant (src : Source) (output_dir : String) (ref : DateTime)
    (st : Stats) (zips : List (String × List String)) (ofs cfs : List String)
    (hrun : archive_previous_month src output_dir ref = .ok (st, zips))
    (ho : listForFolder src "Opening" (get_previous_month_range ref src.useS3).1
        (get_previous_month_range ref src.useS3).2 = .ok ofs)
    (hc : listForFolder src "Customer" (get_previous_month_range ref src.useS3).1
        (get_previous_month_range ref src.useS3).2 = .ok cfs) :
    (st.opening_zip ≠ none ↔ 0 < st.opening_files) ∧
    (st.customer_zip ≠ none ↔ 0 < st.customer_files) ∧
    (st.opening_zip ≠ none → st.opening_files = ofs.length) ∧
    (st.customer_zip ≠ none → st.customer_files = cfs.length) := by
  rw [archive_previous_month_eq src output_dir ref ofs cfs ho hc] at hrun
  have hst : st = ⟨fmtMonth (get_previous_month_range ref src.useS3).1.dt,
      (processFolder output_dir "Opening"
        (fmtMonth (get_previous_month_range ref src.useS3).1.dt) ofs).1,
      (processFolder output_dir "Customer"
        (fmtMonth (get_previous_month_range ref src.useS3).1.dt) cfs).1,
      (processFolder output_dir "Opening"
        (fmtMonth (get_previous_month_range ref src.useS3).1.dt) ofs).2.1,
      (processFolder output_dir "Customer"
        (fmtMonth (get_previous_month_range ref src.useS3).1.dt) cfs).2.1⟩ :=
    (congrArg Prod.fst (Except.ok.inj hrun)).symm
  subst hst
  by_cases hofs : ofs = [] <;> by_cases hcfs : cfs = []
  · subst hofs hcfs
    simp [processFolder_empty]
  · subst hofs
    simp [processFolder_empty, processFolder_nonempty _ _ _ _ hcfs, List.length_pos, hcfs]
  · subst hcfs
    simp [processFolder_empty, processFolder_nonempty _ _ _ _ hofs, List.length_pos, hofs]
  · simp [processFolder_nonempty _ _ _ _ hofs, processFolder_nonempty _ _ _ _ hcfs,
      List.length_pos, hofs, hcfs]

/-- Witness for C10 at the single-file September scenario: the Opening
archive path is set with count 1, the Customer path is absent with count
zero. -/
theorem c10_stats_invariant_witness :
    ((⟨"2025-09", 1, 0, some "out/Opening_2025-09.zip", none⟩ : Stats).opening_zip ≠ none ↔
      0 < (⟨"2025-09", 1, 0, some "out/Opening_2025-09.zip", none⟩ : Stats).opening_files) ∧
    ((⟨"2025-09", 1, 0, some "out/Opening_2025-09.zip", none⟩ : Stats).customer_zip ≠ none ↔
      0 < (⟨"2025-09", 1, 0, some "out/Opening_2025-09.zip", none⟩ : Stats).customer_files) ∧
    ((⟨"2025-09", 1, 0, some "out/Opening_2025-09.zip", none⟩ : Stats).opening_zip ≠ none →
      (⟨"2025-09", 1, 0, some "out/Opening_2025-09.zip", none⟩ : Stats).opening_files =
        ["Opening/TXN100000/IDD.pdf"].length) ∧
    ((⟨"2025-09", 1, 0, some "out/Opening_2025-09.zip", none⟩ : Stats).customer_zip ≠ none →
      (⟨"2025-09", 1, 0, some "out/Opening_2025-09.zip", none⟩ : Stats).customer_files =
        ([] : List String).length) :=
  c10_stats_invariant
    (.loc [("Opening", [⟨"TXN100000/IDD.pdf", ⟨2025, 9, 20, 10, 0, 0, 0⟩⟩])]) "out"
    ⟨2025, 10, 15, 0, 0, 0, 0⟩
    ⟨"2025-09", 1, 0, some "out/Opening_2025-09.zip", none⟩
    [("out/Opening_2025-09.zip", ["Opening/TXN100000/IDD.pdf"])]
    ["Opening/TXN100000/IDD.pdf"] []
    (by decide) (by decide) (by decide)

/-- C6 counterexample: invoking the archiver with both `--bucket` and
`--local-dir` makes `argparse`'s `parser.error` terminate the process
with exit status 2 — not 1 as claimed (and produces no ZIP files). -/
theorem c6_exit_code_counterexample :
    mainRun ⟨some "X", some "Y", "out", false, none⟩ (.loc [])
        ⟨2025, 10, 15, 0, 0, 0, 0⟩ = (2, []) ∧
    (mainRun ⟨some "X", some "Y", "out", false, none⟩ (.loc [])
        ⟨2025, 10, 15, 0, 0, 0, 0⟩).1 ≠ 1 := by
  decide

/-- C6 (amended): every invocation with an invalid argument combination —
both of bucket and local-dir, neither of them, or a malformed date —
exits with status 2 through the argument parser and produces no ZIP
files; every invocation whose archive run completes without exception
exits with status 0. -/
theorem c6_exit_codes (args : Args) (src : Source) (today : DateTime) :
    (((args.bucket.isSome && args.local_dir.isSome) = true ∨
      (args.bucket.isNone && args.local_dir.isNone) = true ∨
      (∃ ds, args.date = some ds ∧ parseDate ds = none)) →
      mainRun args src today = (2, [])) ∧
    (∀ reference_date st zips,
      (args.bucket.isSome && args.local_dir.isSome) = false →
      (args.bucket.isNone && args.local_dir.isNone) = false →
      (match args.date with
        | some ds => parseDate ds
        | none => some today) = some reference_date →
      archive_previous_month src args.output reference_date = .ok (st, zips) →
      mainRun args src today = (0, zips)) := by
  constructor
  · rintro (h | h | ⟨ds, hds, hp⟩)
    · cases hb : args.bucket with
      | none =>
        rw [hb] at h
        simp at h
      | some b =>
        cases hl : args.local_dir with
        | none =>
          rw [hl] at h
          simp at h
        | some l => simp [mainRun, hb, hl]
    · cases hb : args.bucket with
      | none =>
        cases hl : args.local_dir with
        | none => simp [mainRun, hb, hl]
        | some l =>
          rw [hb, hl] at h
          simp at h
      | some b =>
        rw [hb] at h
        simp at h
    · unfold mainRun
      by_cases h1 : (args.bucket.isNone && args.local_dir.isNone) = true
      · simp [h1]
      · simp only [h1, if_false]
        by_cases h2 : (args.bucket.isSome && args.local_dir.isSome) = true
        · simp [h2]
        · simp only [h2, if_false]
          simp [hds, hp]
  · intro reference_date st zips h1 h2 h3 h4
    unfold mainRun
    simp only [h1, h2, if_false]
    rw [h3]
    simp only []
    rw [h4]
    rfl

/-- Witness for C6: a malformed `--date 2025-13-01` exits with status 2
and no ZIPs; a valid local-mode invocation over an empty data directory
completes and exits with status 0. -/
theorem c6_exit_codes_witness :
    mainRun ⟨none, some "data", "out", false, some "2025-13-01"⟩ (.loc [])
        ⟨2025, 1, 1, 0, 0, 0, 0⟩ = (2, []) ∧
    mainRun ⟨none, some "data", "out", false, some "2025-10-15"⟩ (.loc [])
        ⟨2025, 1, 1, 0, 0, 0, 0⟩ = (0, []) :=
  ⟨(c6_exit_codes ⟨none, some "data", "out", false, some "2025-13-01"⟩ (.loc [])
      ⟨2025, 1, 1, 0, 0, 0, 0⟩).1 (Or.inr (Or.inr ⟨"2025-13-01", rfl, by decide⟩)),
   (c6_exit_codes ⟨none, some "data", "out", false, some "2025-10-15"⟩ (.loc [])
      ⟨2025, 1, 1, 0, 0, 0, 0⟩).2 ⟨2025, 10, 15, 0, 0, 0, 0⟩
      ⟨"2025-09", 0, 0, none, none⟩ [] (by decide) (by decide) (by decide) (by decide)⟩
